import Mathlib

/-!
Verification of the multi-provider AI orchestration engine of the
`superagent` repository (`ai-services/src/services/ai_provider.py` and
`ai-services/config.py`), against its natural-language specification.

Python values exchanged with providers are modelled by the `PyVal` type
(JSON-like data); Python dicts are association lists with string keys.
Network calls (`openai`, `httpx`) and `json.loads` are external effects:
they are modelled by an explicit environment record `Env`, so every
code path of the source — including its exception branches — becomes an
explicit case of a total Lean function.
-/

/-- A Python/JSON value: strings, numbers (modelled as rationals),
booleans, `None`, lists, and string-keyed dicts. -/
inductive PyVal where
  | str (s : String)
  | num (q : Rat)
  | bool (b : Bool)
  | null
  | list (xs : List PyVal)
  | dict (kvs : List (String × PyVal))

/-- A Python dict with string keys, as an association list. -/
abbrev PyDict := List (String × PyVal)

/-- Python truthiness (`if result:`): empty strings, zero, `False`,
`None`, empty lists and empty dicts are falsy. -/
def pyTruthy : PyVal → Bool
  | .str s => s != ""
  | .num q => q != 0
  | .bool b => b
  | .null => false
  | .list xs => !xs.isEmpty
  | .dict kvs => !kvs.isEmpty

/-- Subscript access `v[k]` on a dict; `none` models the KeyError /
TypeError raised by Python on a missing key or non-dict receiver. -/
def pyLookup (v : PyVal) (k : String) : Option PyVal :=
  match v with
  | .dict kvs => List.lookup k kvs
  | _ => none

/-- Subscript access `v[i]` on a list; `none` models the IndexError /
TypeError raised by Python otherwise. -/
def pyIdx (v : PyVal) (i : Nat) : Option PyVal :=
  match v with
  | .list xs => xs.get? i
  | _ => none

/-- Extraction of a string value; `none` models the TypeError that a
non-string value triggers further down the source's call chain. -/
def asStr : PyVal → Option String
  | .str s => some s
  | _ => none

/-- Python `dict.get(k, default)`. -/
def pyGet (d : PyDict) (k : String) (dflt : PyVal) : PyVal :=
  (List.lookup k d).getD dflt

/-- Rendering of a rational number. Integers render as in Python;
the non-integer case appears nowhere in the verified claims, so its
decimal formatting is abstracted as numerator/denominator. -/
def ratStr (q : Rat) : String :=
  if q.den = 1 then toString q.num else toString q.num ++ "/" ++ toString q.den

mutual
/-- Python `str()` as used by f-string interpolation: strings render
bare, containers render their elements with `repr()`. -/
def pyStr : PyVal → String
  | .str s => s
  | .num q => ratStr q
  | .bool b => if b then "True" else "False"
  | .null => "None"
  | .list xs => "[" ++ String.intercalate ", " (pyReprList xs) ++ "]"
  | .dict kvs => "\x7b" ++ String.intercalate ", " (pyReprPairs kvs) ++ "\x7d"

/-- Python `repr()`: like `str()` but strings are quoted. -/
def pyRepr : PyVal → String
  | .str s => "\x27" ++ s ++ "\x27"
  | .num q => ratStr q
  | .bool b => if b then "True" else "False"
  | .null => "None"
  | .list xs => "[" ++ String.intercalate ", " (pyReprList xs) ++ "]"
  | .dict kvs => "\x7b" ++ String.intercalate ", " (pyReprPairs kvs) ++ "\x7d"

/-- Renders each element of a list with `repr()`. -/
def pyReprList : List PyVal → List String
  | [] => []
  | v :: vs => pyRepr v :: pyReprList vs

/-- Renders each key/value pair of a dict with `repr()`. -/
def pyReprPairs : List (String × PyVal) → List String
  | [] => []
  | (k, v) :: kvs => (pyRepr (.str k) ++ ": " ++ pyRepr v) :: pyReprPairs kvs
end

/-- Python truthiness of a string (`bool(s)`). -/
def strTruthy (s : String) : Bool := s != ""

/-- Python truthiness of an optional string (`bool(x)` where `x` is a
value of `os.getenv`, which may be `None`). -/
def optStrTruthy : Option String → Bool
  | some s => s != ""
  | none => false

/-- Embedding of `config.Config`: the credential and model fields read
at startup (`config.py`). Model identifiers come from the dataclass
defaults, since `Config.__init__` never overrides them. -/
structure Config where
  openai_api_key : String
  openai_assistant_id : String
  openai_model : String
  deepseek_api_key : String
  deepseek_backup_api_key : String
  deepseek_model : String
  gemini_api_key : String
  gemini_model : String
  serper_api_key : String
  firecrawl_api_key : String
  qdrant_url : String
  qdrant_api_key : String
  handelsregister_api_key : Option String
  zek_api_key : Option String
  astra_api_key : Option String

/-- Embedding of `Config.validate_config` (`config.py` lines 132-161):
a nested mapping service → check-name → bool. -/
def validate_config (c : Config) : PyVal :=
  .dict [
    ("openai", .dict [
      ("api_key_valid", .bool (strTruthy c.openai_api_key && c.openai_api_key != "")),
      ("assistant_id_valid", .bool (strTruthy c.openai_assistant_id))]),
    ("deepseek", .dict [
      ("api_key_valid", .bool (strTruthy c.deepseek_api_key)),
      ("backup_api_key_valid", .bool (strTruthy c.deepseek_backup_api_key))]),
    ("gemini", .dict [
      ("api_key_valid", .bool (strTruthy c.gemini_api_key))]),
    ("web_search", .dict [
      ("serper_api_key_valid", .bool (strTruthy c.serper_api_key)),
      ("firecrawl_api_key_valid", .bool (strTruthy c.firecrawl_api_key))]),
    ("qdrant", .dict [
      ("url_valid", .bool (strTruthy c.qdrant_url)),
      ("api_key_valid", .bool (strTruthy c.qdrant_api_key))]),
    ("swiss_data", .dict [
      ("handelsregister_configured", .bool (optStrTruthy c.handelsregister_api_key)),
      ("zek_configured", .bool (optStrTruthy c.zek_api_key)),
      ("astra_configured", .bool (optStrTruthy c.astra_api_key))])]

/-- Embedding of `Config.get_available_ai_providers` (`config.py`
lines 163-176): a provider is listed iff its API key is truthy (for
openai the source additionally repeats the non-empty test). -/
def get_available_ai_providers (c : Config) : List String :=
  (if strTruthy c.openai_api_key && c.openai_api_key != "" then ["openai"] else []) ++
  (if strTruthy c.deepseek_api_key then ["deepseek"] else []) ++
  (if strTruthy c.gemini_api_key then ["gemini"] else [])

/-- Embedding of `AIProviderService.__init__` (ai_provider.py lines
22-36): the available list starts as `get_available_ai_providers`; if
openai is listed but constructing the OpenAI client raises (modelled by
the flag `openaiInitFails`), openai is removed again. -/
def init_available_providers (c : Config) (openaiInitFails : Bool) : List String :=
  let avail := get_available_ai_providers c
  if avail.contains "openai" && openaiInitFails then avail.erase "openai" else avail

/-- Fixed provider priority (`self.provider_priority`, line 25). -/
def provider_priority : List String := ["openai", "deepseek", "gemini"]

/-- Outcome of the OpenAI client call in `_call_openai` (lines 68-90):
either the call raises, or it returns a reply whose
`choices[0].message.content` is `None` or a string. -/
inductive OpenAIReply where
  | exn
  | reply (content : Option String)

/-- Outcome of an `httpx` POST in `_call_deepseek` / `_call_gemini`:
either the request raises, or an HTTP status arrives together with the
JSON body (`none` when `response.json()` would raise). -/
inductive HttpReply where
  | exn
  | ok (status : Nat) (body : Option PyVal)

/-- Environment of external effects: the startup configuration, the
`json.loads` decoder (`none` models `JSONDecodeError`), one network
oracle per provider (keyed by the prompt), and the wall clock reading
used for `datetime.now().isoformat()`. -/
structure Env where
  cfg : Config
  decode : String → Option PyVal
  openai_net : String → OpenAIReply
  deepseek_net : String → HttpReply
  gemini_net : String → HttpReply
  now : String

/-- Python substring containment `needle in hay`. -/
def strContainsSub (hay needle : String) : Bool :=
  (List.range (hay.toList.length + 1)).any
    (fun i => needle.toList.isPrefixOf (hay.toList.drop i))

/-- Python `s.upper()` (the vocabulary words are plain ASCII). -/
def pyUpper (s : String) : String := String.mk (s.toList.map Char.toUpper)

/-- Embedding of `_structure_text_response` (lines 232-253): the fixed
structured dict built from free-prose provider text. -/
def structure_text_response (content : String) : PyVal :=
  .dict [
    ("recommended_model", .str
      (if strContainsSub (pyUpper content) "LYRIQ" then "LYRIQ" else "VISTIQ")),
    ("confidence_score", .num 0.75),
    ("analysis", .str content),
    ("recommendations", .dict [
      ("model_rationale", .str "Based on AI analysis"),
      ("suggested_options", .list [.str "Premium Package", .str "Technology Package"]),
      ("financing_suggestion", .str "3.9% APR lease with CHF 10,000 down payment"),
      ("key_selling_points", .list [
        .str "Swiss EV infrastructure",
        .str "Luxury and technology",
        .str "Environmental benefits"])]),
    ("next_steps", .list [
      .str "Schedule test drive",
      .str "Prepare TCO calculation",
      .str "Review financing options"])]

/-- The substring of `content` from the first brace to the last brace
inclusive (`content[content.find(chr(123)) : content.rfind(chr(125)) + 1]`
in `_parse_ai_response`). Only used when both braces occur. -/
def extract_json_str (content : String) : String :=
  let cs := content.toList
  let start := cs.indexOf '\x7b'
  let stop := cs.length - 1 - cs.reverse.indexOf '\x7d' + 1
  String.mk ((cs.drop start).take (stop - start))

/-- Embedding of `_parse_ai_response` (lines 216-230): if the text
holds a brace span, decode it; a decoded value is returned verbatim;
on `JSONDecodeError` or when no brace span exists, fall back to
`structure_text_response`. -/
def parse_ai_response (decode : String → Option PyVal) (content : String) : PyVal :=
  if content.toList.contains '\x7b' && content.toList.contains '\x7d' then
    match decode (extract_json_str content) with
    | some v => v
    | none => structure_text_response content
  else
    structure_text_response content

/-- Embedding of `_call_openai` (lines 68-90). Every exception — the
client call raising, or the TypeError that a `None` content triggers
inside `_parse_ai_response` — is caught and becomes `none`. -/
def call_openai (env : Env) (prompt : String) : Option PyVal :=
  match env.openai_net prompt with
  | .exn => none
  | .reply none => none
  | .reply (some content) => some (parse_ai_response env.decode content)

/-- Extraction `result["choices"][0]["message"]["content"]` performed
by `_call_deepseek`; `none` models the KeyError/IndexError/TypeError
raised (and then caught) when the body has a different shape, or when
the content is not a string (in which case `_parse_ai_response` or
`_structure_text_response` raises a TypeError/AttributeError that the
adapter's handler catches). -/
def extract_chat_content (result : PyVal) : Option String := do
  let choices ← pyLookup result "choices"
  let c0 ← pyIdx choices 0
  let msg ← pyLookup c0 "message"
  asStr (← pyLookup msg "content")

/-- Embedding of `_call_deepseek` (lines 92-128): non-200 statuses,
transport exceptions, unparseable bodies and malformed body shapes all
become `none`. -/
def call_deepseek (env : Env) (prompt : String) : Option PyVal :=
  match env.deepseek_net prompt with
  | .exn => none
  | .ok status body =>
    if status = 200 then
      match body with
      | none => none
      | some result =>
        match extract_chat_content result with
        | some content => some (parse_ai_response env.decode content)
        | none => none
    else none

/-- Extraction `result["candidates"][0]["content"]["parts"][0]["text"]`
performed by `_call_gemini`; `none` models the caught exception on any
other body shape. -/
def extract_gemini_content (result : PyVal) : Option String := do
  let candidates ← pyLookup result "candidates"
  let c0 ← pyIdx candidates 0
  let content ← pyLookup c0 "content"
  let parts ← pyLookup content "parts"
  let p0 ← pyIdx parts 0
  asStr (← pyLookup p0 "text")

/-- Embedding of `_call_gemini` (lines 130-172), with the same caught
failure modes as the DeepSeek adapter. -/
def call_gemini (env : Env) (prompt : String) : Option PyVal :=
  match env.gemini_net prompt with
  | .exn => none
  | .ok status body =>
    if status = 200 then
      match body with
      | none => none
      | some result =>
        match extract_gemini_content result with
        | some content => some (parse_ai_response env.decode content)
        | none => none
    else none

/-- Embedding of `_call_ai_provider` (lines 58-66). -/
def call_ai_provider (env : Env) (provider : String) (prompt : String) : Option PyVal :=
  if provider = "openai" then call_openai env prompt
  else if provider = "deepseek" then call_deepseek env prompt
  else if provider = "gemini" then call_gemini env prompt
  else none

/-- Embedding of `_create_customer_analysis_prompt` (lines 174-214):
the f-string template with every interpolation rendered by `str()`. -/
def create_customer_analysis_prompt (customer_data vehicle_preferences : PyDict) : String :=
  "\n        Analyze this customer profile for CADILLAC EV recommendations in Switzerland:\n        \n        CUSTOMER PROFILE:\n        - Name: "
  ++ pyStr (pyGet customer_data "firstName" (.str "")) ++ " "
  ++ pyStr (pyGet customer_data "lastName" (.str ""))
  ++ "\n        - Type: " ++ pyStr (pyGet customer_data "customerType" (.str ""))
  ++ "\n        - Location: " ++ pyStr (pyGet customer_data "city" (.str "")) ++ ", "
  ++ pyStr (pyGet customer_data "canton" (.str ""))
  ++ "\n        - Age: " ++ pyStr (pyGet customer_data "age" (.str "N/A"))
  ++ "\n        - Email: " ++ pyStr (pyGet customer_data "email" (.str ""))
  ++ "\n        - Phone: " ++ pyStr (pyGet customer_data "phone" (.str ""))
  ++ "\n        \n        VEHICLE PREFERENCES:\n        - Budget Range: "
  ++ pyStr (pyGet vehicle_preferences "budget_min" (.str "N/A")) ++ " - "
  ++ pyStr (pyGet vehicle_preferences "budget_max" (.str "N/A")) ++ " CHF"
  ++ "\n        - Usage: " ++ pyStr (pyGet vehicle_preferences "usage" (.str "N/A"))
  ++ "\n        - Features: " ++ pyStr (pyGet vehicle_preferences "features" (.list []))
  ++ "\n        - Timeline: " ++ pyStr (pyGet vehicle_preferences "timeline" (.str "N/A"))
  ++ "\n        \n        SWISS MARKET CONTEXT:\n        - EV adoption rate: 32% year-over-year growth\n        - Luxury EV segment: Growing 45% annually\n        - Government incentives available\n        - Excellent charging infrastructure\n        \n        CADILLAC EV MODELS:\n        - LYRIQ: 100kWh battery, 502km range, CHF 82,900-96,900\n        - VISTIQ: New luxury SUV, premium features, CHF 120,000+\n        \n        Please provide a detailed analysis in JSON format with:\n        1. Recommended CADILLAC EV model with confidence score\n        2. Key selling points for this specific customer\n        3. Suggested options and packages\n        4. Financing recommendations\n        5. Competitive advantages vs. BMW iX, Mercedes EQS\n        6. Swiss-specific benefits (taxes, incentives, infrastructure)\n        7. Next best actions for sales team\n        8. Risk assessment and mitigation strategies\n        \n        Format the response as valid JSON with clear structure.\n        "

/-- The model identifier `getattr(config, provider).model` used by
`_format_analysis_result`; `hasattr` holds for the three providers. -/
def config_model (c : Config) (provider : String) : String :=
  if provider = "openai" then c.openai_model
  else if provider = "deepseek" then c.deepseek_model
  else if provider = "gemini" then c.gemini_model
  else "unknown"

/-- Embedding of `_format_analysis_result` (lines 255-265): the parsed
provider dict is wrapped unchanged under `analysis`. -/
def format_analysis_result (env : Env) (result : PyVal) (provider : String) : PyVal :=
  .dict [
    ("success", .bool true),
    ("analysis", result),
    ("metadata", .dict [
      ("provider", .str provider),
      ("timestamp", .str env.now),
      ("model_used", .str (config_model env.cfg provider))])]

/-- Python equality test of a value against a string literal, as in
`customer_type == "private"`. -/
def pyEqStr (v : PyVal) (s : String) : Bool :=
  match v with
  | .str t => t == s
  | _ => false

/-- Embedding of `_generate_mock_analysis` (lines 267-309): the
deterministic fallback result. -/
def generate_mock_analysis (env : Env) (customer_data : PyDict) (_vehicle_preferences : PyDict) : PyVal :=
  let customer_type := pyGet customer_data "customerType" (.str "private")
  let canton := pyGet customer_data "canton" (.str "ZH")
  let model := if pyEqStr customer_type "private" then "LYRIQ" else "VISTIQ"
  .dict [
    ("success", .bool true),
    ("analysis", .dict [
      ("recommended_model", .str model),
      ("confidence_score", .num 0.85),
      ("recommendations", .dict [
        ("model_rationale", .str ("Based on customer profile, " ++ model
          ++ " offers the perfect balance for " ++ pyStr customer_type
          ++ " customers in " ++ pyStr canton)),
        ("suggested_options", .list [
          .str "Premium Package",
          .str "Advanced Driver Assistance",
          .str "Panoramic Sunroof"]),
        ("financing_suggestion", .str "3.9% APR lease with CHF 10,000 down payment"),
        ("key_selling_points", .list [
          .str "530km range perfect for Swiss driving",
          .str "Award-winning design",
          .str "Advanced technology features",
          .str "Excellent resale value"])]),
      ("swiss_benefits", .list [
        .str ("Kanton " ++ pyStr canton ++ " EV incentives available"),
        .str "Swiss charging network compatibility",
        .str "Tax advantages for business customers",
        .str "Environmental consciousness alignment"]),
      ("next_steps", .list [
        .str "Schedule test drive",
        .str "Prepare detailed TCO calculation",
        .str "Review financing options"])]),
    ("metadata", .dict [
      ("provider", .str "mock"),
      ("timestamp", .str env.now),
      ("note", .str "Mock response - AI providers unavailable")])]

/-- The provider loop of `analyze_customer_with_ai` (lines 44-53),
instrumented with the list of providers whose adapter was invoked:
for each provider of the priority list that is available, call its
adapter; a truthy result is formatted and returned, anything else
(exception, `None`, or a falsy parsed value) advances to the next
provider. -/
def tryProviders (env : Env) (avail : List String) (prompt : String) :
    List String → List String × Option PyVal
  | [] => ([], none)
  | p :: rest =>
    if avail.contains p then
      match call_ai_provider env p prompt with
      | some result =>
        if pyTruthy result then
          ([p], some (format_analysis_result env result p))
        else
          let r := tryProviders env avail prompt rest
          (p :: r.1, r.2)
      | none =>
        let r := tryProviders env avail prompt rest
        (p :: r.1, r.2)
    else
      tryProviders env avail prompt rest

/-- Combined success test of one provider attempt: the adapter returned
a value and that value is truthy (`if result:` on line 49). -/
def succeedsB (env : Env) (prompt : String) (p : String) : Bool :=
  match call_ai_provider env p prompt with
  | some v => pyTruthy v
  | none => false

/-- Embedding of `analyze_customer_with_ai` (lines 38-56): build the
prompt once, walk the priority list, and fall back to the mock result
when no provider produced a truthy value. -/
def analyze_customer_with_ai (env : Env) (avail : List String)
    (customer_data vehicle_preferences : PyDict) : PyVal :=
  let prompt := create_customer_analysis_prompt customer_data vehicle_preferences
  match (tryProviders env avail prompt provider_priority).2 with
  | some r => r
  | none => generate_mock_analysis env customer_data vehicle_preferences

/-- Embedding of `get_provider_status` (lines 311-317): a pure read of
the startup provider list, the fixed priority, and `validate_config`. -/
def get_provider_status (c : Config) (avail : List String) : PyVal :=
  .dict [
    ("available_providers", .list (avail.map .str)),
    ("provider_priority", .list (provider_priority.map .str)),
    ("config_validation", validate_config c)]

/-- A configuration with no credentials set; model identifiers are the
dataclass defaults of `config.py`. -/
def cfg0 : Config :=
  ⟨"", "", "gpt-4-turbo-preview", "", "", "deepseek-chat", "", "gemini-pro",
   "", "", "", "", none, none, none⟩

/-- A brace-delimited provider output carrying none of the canonical
schema keys. -/
def jsonFoo : String := "\x7b\"foo\": 1\x7d"

/-- A decoder behaving like `json.loads` on `jsonFoo` and failing on
everything else. -/
def decodeFoo : String → Option PyVal :=
  fun s => if s == jsonFoo then some (.dict [("foo", .num 1)]) else none

/-- A 50001-character customer first name. -/
def bigName : String := String.mk (List.replicate 50001 'A')

/-- An environment in which every provider call raises and every decode
fails. -/
def env0 : Env :=
  ⟨cfg0, fun _ => none, fun _ => .exn, fun _ => .exn, fun _ => .exn,
   "2024-01-01T00:00:00"⟩

/-- An environment in which the OpenAI call succeeds with the sparse
JSON payload `jsonFoo`. -/
def envSparse : Env :=
  ⟨cfg0, decodeFoo, fun _ => .reply (some jsonFoo), fun _ => .exn, fun _ => .exn,
   "2024-01-01T00:00:00"⟩

/-- The provider output consisting of an empty JSON object. -/
def jsonEmpty : String := "\x7b\x7d"

/-- A decoder behaving like `json.loads` on the empty object. -/
def decodeEmpty : String → Option PyVal :=
  fun s => if s == jsonEmpty then some (.dict []) else none

/-- An environment in which the OpenAI call succeeds with the empty
JSON object as its whole reply. -/
def envEmpty : Env :=
  ⟨cfg0, decodeEmpty, fun _ => .reply (some jsonEmpty), fun _ => .exn, fun _ => .exn,
   "2024-01-01T00:00:00"⟩

/-- An environment in which the OpenAI call succeeds with plain prose. -/
def envProse : Env :=
  ⟨cfg0, fun _ => none, fun _ => .reply (some "ok"), fun _ => .exn, fun _ => .exn,
   "2024-01-01T00:00:00"⟩

/-- All three providers configured. -/
def availAll : List String := ["openai", "deepseek", "gemini"]

/-- A configuration in which every credential is set. -/
def cfgK : Config :=
  ⟨"k", "k", "gpt-4-turbo-preview", "k", "k", "deepseek-chat", "k", "gemini-pro",
   "k", "k", "k", "k", some "k", some "k", some "k"⟩

/-- The credential string backing each provider of the priority list. -/
def credential_of (c : Config) (p : String) : String :=
  if p = "openai" then c.openai_api_key
  else if p = "deepseek" then c.deepseek_api_key
  else if p = "gemini" then c.gemini_api_key
  else ""

/-- Claim C4, corrected: when the extracted brace span decodes
successfully, `_parse_ai_response` returns the decoded mapping
verbatim — no keys are remapped and no missing canonical key is filled
with a default (the default-filling described by the spec happens only
on the free-prose path). -/
theorem C4_decoded_verbatim (decode : String → Option PyVal) (content : String) (v : PyVal)
    (h1 : content.toList.contains '\x7b' = true)
    (h2 : content.toList.contains '\x7d' = true)
    (h3 : decode (extract_json_str content) = some v) :
    parse_ai_response decode content = v := by
  unfold parse_ai_response
  split
  · rw [h3]
  · rename_i hcond
    rw [h1, h2] at hcond
    simp at hcond

/-- Witness for C4_decoded_verbatim at a concrete decoded payload. -/
theorem C4_witness :
    decodeFoo (extract_json_str jsonFoo) = some (.dict [("foo", .num 1)]) ∧
    parse_ai_response decodeFoo jsonFoo = .dict [("foo", .num 1)] :=
  ⟨rfl, C4_decoded_verbatim decodeFoo jsonFoo _ rfl rfl rfl⟩

/-- Counterexample to claim C4 as stated: the rawText decodes
successfully, yet the normalized result has no `recommended_model` and
no `confidence_score` key at all — missing canonical keys are not
filled with schema defaults. -/
theorem C4_counterexample :
    parse_ai_response decodeFoo jsonFoo = .dict [("foo", .num 1)] ∧
    pyLookup (parse_ai_response decodeFoo jsonFoo) "recommended_model" = none ∧
    pyLookup (parse_ai_response decodeFoo jsonFoo) "confidence_score" = none :=
  ⟨rfl, rfl, rfl⟩

/-- Claim C5, confirmed: on any input without a brace span the
normalizer degrades to the structured free-prose result (it cannot
raise: the embedding is a total function covering every source path)
and the confidence score is exactly 0.75. -/
theorem C5_prose_confidence (decode : String → Option PyVal) (content : String)
    (h : (content.toList.contains '\x7b' && content.toList.contains '\x7d') = false) :
    parse_ai_response decode content = structure_text_response content ∧
    pyLookup (parse_ai_response decode content) "confidence_score" = some (.num 0.75) := by
  have he : parse_ai_response decode content = structure_text_response content := by
    unfold parse_ai_response
    split
    · rename_i hcond
      rw [h] at hcond
      simp at hcond
    · rfl
  exact ⟨he, by rw [he]; rfl⟩

/-- Witness for C5_prose_confidence on a plain-prose string. -/
theorem C5_witness :
    ("hello".toList.contains '\x7b' && "hello".toList.contains '\x7d') = false ∧
    pyLookup (parse_ai_response (fun _ => none) "hello") "confidence_score" = some (.num 0.75) :=
  ⟨rfl, (C5_prose_confidence (fun _ => none) "hello" rfl).2⟩

/-- Claim C6, corrected: the free-prose path matches the uppercased
text against the single word LYRIQ; any text not containing it — in
particular one matching neither vocabulary entry — yields VISTIQ (the
second vocabulary entry), not LYRIQ. -/
theorem C6_vocabulary_choice (content : String) :
    pyLookup (structure_text_response content) "recommended_model" =
      some (.str (if strContainsSub (pyUpper content) "LYRIQ" then "LYRIQ" else "VISTIQ")) ∧
    (strContainsSub (pyUpper content) "LYRIQ" = false →
      pyLookup (structure_text_response content) "recommended_model" = some (.str "VISTIQ")) := by
  refine ⟨rfl, fun h => ?_⟩
  have e : pyLookup (structure_text_response content) "recommended_model" =
      some (.str (if strContainsSub (pyUpper content) "LYRIQ" then "LYRIQ" else "VISTIQ")) := rfl
  rw [e, h]
  rfl

/-- Witness for C6_vocabulary_choice on a no-match input. -/
theorem C6_witness :
    strContainsSub (pyUpper "hello") "LYRIQ" = false ∧
    pyLookup (structure_text_response "hello") "recommended_model" = some (.str "VISTIQ") :=
  ⟨rfl, (C6_vocabulary_choice "hello").2 rfl⟩

/-- Counterexample to claim C6 as stated: the text matches neither
vocabulary entry, yet the recommended model is VISTIQ, not the first
vocabulary entry LYRIQ that the claim requires. -/
theorem C6_counterexample :
    pyLookup (structure_text_response "hello") "recommended_model" = some (.str "VISTIQ") ∧
    ("VISTIQ" : String) ≠ "LYRIQ" :=
  ⟨rfl, by decide⟩

/-- The formatted prompt embeds the rendered firstName field whole, so
the prompt is at least that long. -/
lemma firstName_length_le_prompt (cd vp : PyDict) :
    (pyStr (pyGet cd "firstName" (.str ""))).length ≤
      (create_customer_analysis_prompt cd vp).length := by
  simp only [create_customer_analysis_prompt, String.length_append]
  omega

/-- Claim C7, corrected: the request formatter applies no size cap and
no truncation at all; the prompt always contains the rendered firstName
field in full, so its length grows without bound in the input. -/
theorem C7_no_size_cap (cd vp : PyDict) :
    (pyStr (pyGet cd "firstName" (.str ""))).length ≤
      (create_customer_analysis_prompt cd vp).length :=
  firstName_length_le_prompt cd vp

/-- Counterexample to claim C7 as stated: a 50001-character firstName
already drives the prompt beyond the claimed 50000-character cap. -/
theorem C7_counterexample :
    50000 < (create_customer_analysis_prompt [("firstName", .str bigName)] []).length := by
  have h := firstName_length_le_prompt [("firstName", .str bigName)] []
  have h1 : pyGet [("firstName", PyVal.str bigName)] "firstName" (.str "") = .str bigName := rfl
  have h2 : pyStr (.str bigName) = bigName := by simp [pyStr]
  have h3 : bigName.length = (List.replicate 50001 'A').length := rfl
  rw [h1, h2, h3, List.length_replicate] at h
  omega

/-- A provider that is not in the available list is skipped without
being invoked. -/
lemma tryProviders_cons_not_avail (env : Env) (avail : List String) (prompt p : String)
    (l : List String) (h : avail.contains p = false) :
    tryProviders env avail prompt (p :: l) = tryProviders env avail prompt l := by
  simp only [tryProviders]
  rw [h]
  rfl

/-- An unsuccessful attempt (adapter exception, `None`, or falsy parsed
value) records the provider as invoked and continues with the rest. -/
lemma tryProviders_cons_fail (env : Env) (avail : List String) (prompt p : String)
    (l : List String) (hmem : avail.contains p = true)
    (hs : succeedsB env prompt p = false) :
    tryProviders env avail prompt (p :: l) =
      (p :: (tryProviders env avail prompt l).1, (tryProviders env avail prompt l).2) := by
  cases hcall : call_ai_provider env p prompt with
  | none =>
    simp only [tryProviders]
    rw [hmem, hcall]
    rfl
  | some v =>
    have ht : pyTruthy v = false := by
      unfold succeedsB at hs
      rw [hcall] at hs
      exact hs
    simp only [tryProviders]
    rw [hmem, hcall]
    simp [ht]

/-- A successful attempt stops the walk at once. -/
lemma tryProviders_cons_succ (env : Env) (avail : List String) (prompt p : String)
    (l : List String) (v : PyVal) (hmem : avail.contains p = true)
    (hcall : call_ai_provider env p prompt = some v) (ht : pyTruthy v = true) :
    tryProviders env avail prompt (p :: l) = ([p], some (format_analysis_result env v p)) := by
  simp only [tryProviders]
  rw [hmem, hcall]
  simp [ht]

/-- A true success test yields the successful value. -/
lemma succeedsB_eq_true (env : Env) (prompt p : String)
    (h : succeedsB env prompt p = true) :
    ∃ v, call_ai_provider env p prompt = some v ∧ pyTruthy v = true := by
  unfold succeedsB at h
  cases hcall : call_ai_provider env p prompt with
  | none => rw [hcall] at h; exact Bool.noConfusion h
  | some v => rw [hcall] at h; exact ⟨v, rfl, h⟩

/-- When every provider attempt fails, the walk invokes every available
provider in order and produces no result. -/
lemma tryProviders_all_fail (env : Env) (avail : List String) (prompt : String)
    (l : List String) (h : ∀ p ∈ l, succeedsB env prompt p = false) :
    tryProviders env avail prompt l = (List.filter (fun p => decide (p ∈ avail)) l, none) := by
  induction l with
  | nil => rfl
  | cons p l ih =>
    have hp : succeedsB env prompt p = false := h p (by simp)
    have hl := ih (fun q hq => h q (by simp [hq]))
    cases hmem : avail.contains p with
    | false =>
      have hm : p ∉ avail := by simpa using hmem
      rw [tryProviders_cons_not_avail _ _ _ _ _ hmem, hl]
      simp [List.filter_cons, hm]
    | true =>
      have hm : p ∈ avail := by simpa using hmem
      rw [tryProviders_cons_fail _ _ _ _ _ hmem hp, hl]
      simp [List.filter_cons, hm]

/-- The walk either yields nothing or a formatted provider result. -/
lemma tryProviders_shape (env : Env) (avail : List String) (prompt : String)
    (l : List String) :
    (tryProviders env avail prompt l).2 = none ∨
      ∃ v p, (tryProviders env avail prompt l).2 = some (format_analysis_result env v p) := by
  induction l with
  | nil => exact Or.inl rfl
  | cons p l ih =>
    cases hmem : avail.contains p with
    | false => rw [tryProviders_cons_not_avail _ _ _ _ _ hmem]; exact ih
    | true =>
      cases hs : succeedsB env prompt p with
      | false => rw [tryProviders_cons_fail _ _ _ _ _ hmem hs]; exact ih
      | true =>
        obtain ⟨v, hcall, ht⟩ := succeedsB_eq_true _ _ _ hs
        rw [tryProviders_cons_succ _ _ _ _ _ v hmem hcall ht]
        exact Or.inr ⟨v, p, rfl⟩

/-- The invoked-provider trace is an initial segment of the available
providers taken in priority order. -/
lemma tryProviders_trace_initial (env : Env) (avail : List String) (prompt : String)
    (l : List String) :
    ∃ t, List.filter (fun p => decide (p ∈ avail)) l =
      (tryProviders env avail prompt l).1 ++ t := by
  induction l with
  | nil => exact ⟨[], rfl⟩
  | cons p l ih =>
    cases hmem : avail.contains p with
    | false =>
      have hm : p ∉ avail := by simpa using hmem
      rw [tryProviders_cons_not_avail _ _ _ _ _ hmem]
      simpa [List.filter_cons, hm] using ih
    | true =>
      have hm : p ∈ avail := by simpa using hmem
      cases hs : succeedsB env prompt p with
      | false =>
        obtain ⟨t, ht⟩ := ih
        refine ⟨t, ?_⟩
        rw [tryProviders_cons_fail _ _ _ _ _ hmem hs]
        simp [List.filter_cons, hm, ht]
      | true =>
        obtain ⟨v, hcall, htr⟩ := succeedsB_eq_true _ _ _ hs
        refine ⟨List.filter (fun q => decide (q ∈ avail)) l, ?_⟩
        rw [tryProviders_cons_succ _ _ _ _ _ v hmem hcall htr]
        simp [List.filter_cons, hm]

/-- No provider that sits after a successful one in the filtered
priority order is ever invoked. -/
lemma tryProviders_not_after_success (env : Env) (avail : List String) (prompt : String)
    (l : List String) (hnd : (List.filter (fun p => decide (p ∈ avail)) l).Nodup) :
    ∀ l₁ q l₂, List.filter (fun p => decide (p ∈ avail)) l = l₁ ++ q :: l₂ →
      (∃ p ∈ l₁, succeedsB env prompt p = true) →
      q ∉ (tryProviders env avail prompt l).1 := by
  induction l with
  | nil =>
    intro l₁ q l₂ hf hex
    cases l₁ <;> simp_all
  | cons a l ih =>
    intro l₁ q l₂ hf hex
    cases hmem : avail.contains a with
    | false =>
      have hm : a ∉ avail := by simpa using hmem
      rw [List.filter_cons] at hf hnd
      simp only [hm, decide_eq_true_eq, if_false, decide_False] at hf hnd
      rw [tryProviders_cons_not_avail _ _ _ _ _ hmem]
      exact ih hnd l₁ q l₂ hf hex
    | true =>
      have hm : a ∈ avail := by simpa using hmem
      rw [List.filter_cons] at hf hnd
      simp only [hm, decide_True, if_true] at hf hnd
      rw [List.nodup_cons] at hnd
      obtain ⟨ha, hnd'⟩ := hnd
      cases l₁ with
      | nil =>
        obtain ⟨p, hp, _⟩ := hex
        exact absurd hp (List.not_mem_nil p)
      | cons b l₁ =>
        rw [List.cons_append] at hf
        obtain ⟨hab, hf'⟩ := List.cons_eq_cons.mp hf
        have hqa : q ≠ a := by
          intro hqe
          apply ha
          rw [hf', ← hqe]
          simp
        cases hs : succeedsB env prompt a with
        | true =>
          obtain ⟨v, hcall, htr⟩ := succeedsB_eq_true _ _ _ hs
          rw [tryProviders_cons_succ _ _ _ _ _ v hmem hcall htr]
          simp [hqa]
        | false =>
          obtain ⟨p, hp, hps⟩ := hex
          have hpl : p ∈ l₁ := by
            cases List.mem_cons.mp hp with
            | inl hpe =>
              exfalso
              rw [hpe, ← hab] at hps
              rw [hs] at hps
              exact Bool.noConfusion hps
            | inr h' => exact h'
          rw [tryProviders_cons_fail _ _ _ _ _ hmem hs]
          intro hin
          cases List.mem_cons.mp hin with
          | inl h' => exact hqa h'
          | inr h' => exact ih hnd' l₁ q l₂ hf' ⟨p, hpl, hps⟩ h'

/-- Claim C1, corrected: for every environment and every pair of input
mappings the engine returns a value (the embedding is total over all
source paths, including each exception branch) whose top level always
carries `success = true`, an `analysis` entry and a `metadata` entry
with provider and timestamp. The spec's stronger promise — that the
value conforms to the full canonical schema — does not hold: a provider
analysis dict is passed through verbatim and may lack canonical keys. -/
theorem C1_total_result_shape (env : Env) (avail : List String) (cd vp : PyDict) :
    pyLookup (analyze_customer_with_ai env avail cd vp) "success" = some (.bool true) ∧
    (∃ a, pyLookup (analyze_customer_with_ai env avail cd vp) "analysis" = some a) ∧
    (∃ m, pyLookup (analyze_customer_with_ai env avail cd vp) "metadata" = some m ∧
      (∃ pr, pyLookup m "provider" = some (.str pr)) ∧
      pyLookup m "timestamp" = some (.str env.now)) := by
  simp only [analyze_customer_with_ai]
  rcases tryProviders_shape env avail (create_customer_analysis_prompt cd vp) provider_priority
    with h | ⟨v, p, h⟩ <;> rw [h]
  · exact ⟨rfl, ⟨_, rfl⟩, _, rfl, ⟨"mock", rfl⟩, rfl⟩
  · exact ⟨rfl, ⟨v, rfl⟩, _, rfl, ⟨p, rfl⟩, rfl⟩

/-- Counterexample to claim C1 as stated: with OpenAI available and
replying with sparse JSON, the caller receives an analysis equal to the
decoded dict, which lacks the canonical `recommended_model` field — the
result does not conform to the canonical AnalysisResult schema. -/
theorem C1_counterexample :
    pyLookup (analyze_customer_with_ai envSparse ["openai"] [] []) "analysis" =
      some (.dict [("foo", .num 1)]) ∧
    pyLookup (.dict [("foo", .num 1)]) "recommended_model" = none :=
  ⟨rfl, rfl⟩

/-- The fallback analysis recommends LYRIQ exactly when the customer
type field equals the string private, and VISTIQ otherwise. -/
lemma mock_recommended_model (env : Env) (cd vp : PyDict) :
    ∃ a, pyLookup (generate_mock_analysis env cd vp) "analysis" = some a ∧
      pyLookup a "recommended_model" =
        some (.str (if pyEqStr (pyGet cd "customerType" (.str "private")) "private"
          then "LYRIQ" else "VISTIQ")) :=
  ⟨_, rfl, rfl⟩

/-- Claim C2, corrected: when every provider attempt fails the engine
returns the deterministic mock analysis, whose recommended model is one
of the two vocabulary entries — but its metadata carries
`provider = "mock"` (not "fallback") and a `note` string; no
`isFallback` field exists anywhere in the result. -/
theorem C2_all_fail_uses_mock (env : Env) (avail : List String) (cd vp : PyDict)
    (hall : ∀ p ∈ provider_priority,
      succeedsB env (create_customer_analysis_prompt cd vp) p = false) :
    analyze_customer_with_ai env avail cd vp = generate_mock_analysis env cd vp ∧
    (∃ m, pyLookup (generate_mock_analysis env cd vp) "metadata" = some m ∧
      pyLookup m "provider" = some (.str "mock") ∧
      pyLookup m "isFallback" = none ∧
      pyLookup m "note" = some (.str "Mock response - AI providers unavailable")) ∧
    (∃ a, pyLookup (generate_mock_analysis env cd vp) "analysis" = some a ∧
      (pyLookup a "recommended_model" = some (.str "LYRIQ") ∨
       pyLookup a "recommended_model" = some (.str "VISTIQ"))) := by
  refine ⟨?_, ⟨_, rfl, rfl, rfl, rfl⟩, ?_⟩
  · have h := tryProviders_all_fail env avail (create_customer_analysis_prompt cd vp)
      provider_priority hall
    simp only [analyze_customer_with_ai]
    rw [h]
  · obtain ⟨a, ha, hrm⟩ := mock_recommended_model env cd vp
    refine ⟨a, ha, ?_⟩
    cases hb : pyEqStr (pyGet cd "customerType" (.str "private")) "private" with
    | true =>
      rw [hb] at hrm
      left
      simpa using hrm
    | false =>
      rw [hb] at hrm
      right
      simpa using hrm

/-- Witness for C2_all_fail_uses_mock: with no provider configured the
result is the mock analysis. -/
theorem C2_witness :
    (∀ p ∈ provider_priority,
      succeedsB env0 (create_customer_analysis_prompt [] []) p = false) ∧
    analyze_customer_with_ai env0 [] [] [] = generate_mock_analysis env0 [] [] :=
  ⟨by decide, (C2_all_fail_uses_mock env0 [] [] [] (by decide)).1⟩

/-- Counterexample to claim C2 as stated: with every provider failing,
the metadata provider string is "mock", not "fallback", and there is no
`isFallback` key at all (so it cannot equal true). -/
theorem C2_counterexample :
    (∃ m, pyLookup (analyze_customer_with_ai env0 [] [] []) "metadata" = some m ∧
      pyLookup m "provider" = some (.str "mock") ∧
      pyLookup m "isFallback" = none) ∧
    ("mock" : String) ≠ "fallback" :=
  ⟨⟨_, rfl, rfl, rfl⟩, by decide⟩

/-- Claim C3, confirmed: the providers invoked by one run form an
initial segment of the fixed priority order (openai, deepseek, gemini)
restricted to the available ones, and no provider that sits after a
successful one in that order is ever invoked. -/
theorem C3_priority_order (env : Env) (avail : List String) (cd vp : PyDict) :
    (∃ t, List.filter (fun p => decide (p ∈ avail)) provider_priority =
      (tryProviders env avail (create_customer_analysis_prompt cd vp) provider_priority).1 ++ t) ∧
    (∀ l₁ q l₂,
      List.filter (fun p => decide (p ∈ avail)) provider_priority = l₁ ++ q :: l₂ →
      (∃ p ∈ l₁, succeedsB env (create_customer_analysis_prompt cd vp) p = true) →
      q ∉ (tryProviders env avail (create_customer_analysis_prompt cd vp) provider_priority).1) := by
  constructor
  · exact tryProviders_trace_initial env avail _ provider_priority
  · exact tryProviders_not_after_success env avail _ provider_priority
      (List.Nodup.filter _ (by decide))

/-- Witness for C3_priority_order: all three providers available,
OpenAI succeeds, so DeepSeek is never invoked. -/
theorem C3_witness :
    succeedsB envProse (create_customer_analysis_prompt [] []) "openai" = true ∧
    "deepseek" ∉
      (tryProviders envProse availAll (create_customer_analysis_prompt [] []) provider_priority).1 :=
  ⟨rfl,
   (C3_priority_order envProse availAll [] []).2 ["openai"] "deepseek" ["gemini"] (by decide)
     ⟨"openai", by decide, rfl⟩⟩

/-- Claim C8, confirmed: each adapter converts every failure of its
external call — a raised exception, a non-200 status, an unparseable
body, a malformed body shape, or a missing content string — into the
`None` failure outcome instead of propagating an exception (the
embedding is total: every source exception branch is an explicit case
mapped to `none`). -/
theorem C8_adapters_never_raise (env : Env) (prompt : String) :
    (env.openai_net prompt = .exn → call_openai env prompt = none) ∧
    (env.openai_net prompt = .reply none → call_openai env prompt = none) ∧
    (env.deepseek_net prompt = .exn → call_deepseek env prompt = none) ∧
    (∀ st body, env.deepseek_net prompt = .ok st body → st ≠ 200 →
      call_deepseek env prompt = none) ∧
    (env.deepseek_net prompt = .ok 200 none → call_deepseek env prompt = none) ∧
    (∀ r, env.deepseek_net prompt = .ok 200 (some r) → extract_chat_content r = none →
      call_deepseek env prompt = none) ∧
    (env.gemini_net prompt = .exn → call_gemini env prompt = none) ∧
    (∀ st body, env.gemini_net prompt = .ok st body → st ≠ 200 →
      call_gemini env prompt = none) ∧
    (env.gemini_net prompt = .ok 200 none → call_gemini env prompt = none) ∧
    (∀ r, env.gemini_net prompt = .ok 200 (some r) → extract_gemini_content r = none →
      call_gemini env prompt = none) := by
  refine ⟨fun h => ?_, fun h => ?_, fun h => ?_, fun st body h hst => ?_, fun h => ?_,
    fun r h hx => ?_, fun h => ?_, fun st body h hst => ?_, fun h => ?_, fun r h hx => ?_⟩
  · unfold call_openai; rw [h]
  · unfold call_openai; rw [h]
  · unfold call_deepseek; rw [h]
  · unfold call_deepseek; rw [h]; simp [hst]
  · unfold call_deepseek; rw [h]; simp
  · unfold call_deepseek; rw [h]; simp [hx]
  · unfold call_gemini; rw [h]
  · unfold call_gemini; rw [h]; simp [hst]
  · unfold call_gemini; rw [h]; simp
  · unfold call_gemini; rw [h]; simp [hx]

/-- Witness for C8_adapters_never_raise: in the all-raising environment
every adapter invocation reports failure instead of throwing. -/
theorem C8_witness :
    env0.openai_net "p" = OpenAIReply.exn ∧
    call_openai env0 "p" = none ∧
    call_deepseek env0 "p" = none ∧
    call_gemini env0 "p" = none :=
  ⟨rfl, (C8_adapters_never_raise env0 "p").1 rfl,
   (C8_adapters_never_raise env0 "p").2.2.1 rfl,
   (C8_adapters_never_raise env0 "p").2.2.2.2.2.2.1 rfl⟩

/-- Claim C9, corrected: `get_provider_status` is a pure read returning
the ordered priority list, the startup availability list and the
boolean configuration checks; a provider's credential being non-empty
is necessary for availability, but not sufficient — openai is dropped
from the startup list when the OpenAI client constructor raises, even
with a non-empty credential. -/
theorem C9_status_report (c : Config) (openaiInitFails : Bool) :
    get_provider_status c (init_available_providers c openaiInitFails) =
      .dict [
        ("available_providers", .list ((init_available_providers c openaiInitFails).map .str)),
        ("provider_priority", .list [.str "openai", .str "deepseek", .str "gemini"]),
        ("config_validation", validate_config c)] ∧
    (∀ p ∈ provider_priority,
      (p ∈ init_available_providers c openaiInitFails ↔
        (credential_of c p ≠ "" ∧ (p = "openai" → openaiInitFails = false)))) := by
  refine ⟨rfl, ?_⟩
  intro p hp
  have hp' : p = "openai" ∨ p = "deepseek" ∨ p = "gemini" := by
    simpa [provider_priority] using hp
  by_cases ho : c.openai_api_key = "" <;>
  by_cases hd : c.deepseek_api_key = "" <;>
  by_cases hg : c.gemini_api_key = "" <;>
  cases openaiInitFails <;>
  rcases hp' with rfl | rfl | rfl <;>
  simp_all [init_available_providers, get_available_ai_providers, credential_of, strTruthy]

/-- Witness for C9_status_report: every credential set, client
initialization succeeds, deepseek is available. -/
theorem C9_witness :
    "deepseek" ∈ provider_priority ∧
    ("deepseek" ∈ init_available_providers cfgK false ↔
      (credential_of cfgK "deepseek" ≠ "" ∧ ("deepseek" = "openai" → false = false))) :=
  ⟨by decide, (C9_status_report cfgK false).2 "deepseek" (by decide)⟩

/-- Counterexample to claim C9 as stated: with a non-empty openai
credential but a failing client initialization, openai is absent from
the reported available list, refuting the claimed iff between
availability and non-empty credential. -/
theorem C9_counterexample :
    cfgK.openai_api_key ≠ "" ∧
    "openai" ∉ init_available_providers cfgK true ∧
    pyLookup (get_provider_status cfgK (init_available_providers cfgK true))
        "available_providers" =
      some (.list [.str "deepseek", .str "gemini"]) :=
  ⟨by decide, by decide, rfl⟩

/-- Claim C10, confirmed: a provider whose call completes with a falsy
parsed value (such as the empty JSON object) is recorded as invoked but
treated exactly like a failure: the walk continues with the remaining
providers and the falsy value is never the produced result. -/
theorem C10_falsy_result_skipped (env : Env) (avail : List String) (cd vp : PyDict)
    (p : String) (rest : List String) (v : PyVal)
    (hmem : avail.contains p = true)
    (hcall : call_ai_provider env p (create_customer_analysis_prompt cd vp) = some v)
    (hfalsy : pyTruthy v = false) :
    tryProviders env avail (create_customer_analysis_prompt cd vp) (p :: rest) =
      (p :: (tryProviders env avail (create_customer_analysis_prompt cd vp) rest).1,
       (tryProviders env avail (create_customer_analysis_prompt cd vp) rest).2) :=
  tryProviders_cons_fail _ _ _ _ _ hmem (by
    unfold succeedsB
    rw [hcall]
    exact hfalsy)

/-- Witness for C10_falsy_result_skipped: OpenAI replies with the empty
JSON object, which parses to an empty dict, and the walk moves on. -/
theorem C10_witness :
    call_ai_provider envEmpty "openai" (create_customer_analysis_prompt [] []) =
      some (.dict []) ∧
    pyTruthy (.dict []) = false ∧
    tryProviders envEmpty ["openai"] (create_customer_analysis_prompt [] [])
        ("openai" :: ["deepseek", "gemini"]) =
      ("openai" ::
        (tryProviders envEmpty ["openai"] (create_customer_analysis_prompt [] [])
          ["deepseek", "gemini"]).1,
       (tryProviders envEmpty ["openai"] (create_customer_analysis_prompt [] [])
          ["deepseek", "gemini"]).2) :=
  ⟨rfl, rfl,
   C10_falsy_result_skipped envEmpty ["openai"] [] [] "openai" ["deepseek", "gemini"]
     (.dict []) rfl rfl rfl⟩
